import Mathlib

/-!
Shallow embedding of the Voice-Spec-Driven-Development workflow
(`src/state.py`, `src/workflow.py`, `src/agents/agent1_transcription.py`,
`src/agents/agent3_sprint_init.py`; Stage 2 is modelled from the spec
because its source file is not present under `src/`).

External effects (the Gemini calls, the GitHub stage, the `claude`
subprocess and the two `git` queries) are modelled as oracle values:
one run of the program corresponds to one choice of oracle values, and
theorems quantify over all of them.  Python exceptions are modelled by
the `PyExn` type; a function that may raise returns the mutated state
together with an `Option PyExn` (the re-raised exception, `none` for a
normal return).
-/

/-- `AgentStatus` from `src/state.py`. -/
inductive AgentStatus
  | pending
  | in_progress
  | completed
  | failed
deriving Repr, DecidableEq

/-- Technical-requirements schema (`TechRequirements` pydantic model in
`src/agents/agent1_transcription.py`).  Agent 3 reads the stored mapping
with `.get` and defaults, so a total record is an adequate model of the
stored value. -/
structure TechRequirements where
  languages : List String
  frameworks : List String
  dependencies : List String
  architecture : String
deriving Repr, DecidableEq

/-- `ProjectState` from `src/state.py` (a `TypedDict` with `total=False`:
optional keys are modelled as `Option` fields, `none` meaning the key is
absent or was set to Python `None`). -/
structure ProjectState where
  audio_file_path : String
  transcript : Option String := none
  project_name : Option String := none
  project_description : Option String := none
  dev_specification : Option String := none
  tech_requirements : Option TechRequirements := none
  features : Option (List String) := none
  repo_url : Option String := none
  repo_owner : Option String := none
  local_repo_path : Option String := none
  claude_md_content : Option String := none
  initial_files_created : Option (List String) := none
  initial_commit_sha : Option String := none
  files_created : Option (List String) := none
  dependencies_installed : Option Bool := none
  tests_passing : Option Bool := none
  current_agent : String
  agent_1_status : AgentStatus
  agent_2_status : AgentStatus
  agent_3_status : AgentStatus
  errors : List String
  warnings : List String
  completed : Bool
  success_message : Option String := none
deriving Repr, DecidableEq

/-- `create_initial_state` from `src/state.py`. -/
def create_initial_state (audio_file_path : String) : ProjectState :=
  { audio_file_path := audio_file_path
    current_agent := "start"
    agent_1_status := AgentStatus.pending
    agent_2_status := AgentStatus.pending
    agent_3_status := AgentStatus.pending
    errors := []
    warnings := []
    completed := false }

/-- Python exceptions that occur in the modelled code. -/
inductive PyExn
  | timeoutExpired
  | runtimeError (msg : String)
  | keyError (key : String)
  | typeError (msg : String)
  | other (msg : String)
deriving Repr, DecidableEq

/-- Python `str(e)` for the modelled exceptions (`str(KeyError(k))` is the
key wrapped in single quotes). -/
def strPyExn : PyExn → String
  | PyExn.timeoutExpired => "TimeoutExpired"
  | PyExn.runtimeError m => m
  | PyExn.keyError k => "\x27" ++ k ++ "\x27"
  | PyExn.typeError m => m
  | PyExn.other m => m

/-- The dictionary returned by `json.loads(response.text)` in
`optimize_specification`: an arbitrary JSON object, of which only the
five schema keys matter; each may be absent (indexing an absent key
raises `KeyError`).  A response that parses to a non-object value raises
at the first index just like an object with no keys, so it is modelled
by the all-`none` record. -/
structure SpecDict where
  project_name : Option String
  project_description : Option String
  dev_specification : Option String
  tech_requirements : Option TechRequirements
  features : Option (List String)
deriving Repr, DecidableEq

/-- The `except` block of `TranscriptionAgent.execute`
(`src/agents/agent1_transcription.py`, lines 128-132). -/
def agent1Fail (s : ProjectState) (e : PyExn) : ProjectState :=
  { s with agent_1_status := AgentStatus.failed
           errors := s.errors ++ ["Agent 1 failed: " ++ strPyExn e] }

/-- `TranscriptionAgent.execute` (`src/agents/agent1_transcription.py`,
lines 98-134).  `tr` is the outcome of `transcribe_audio` (which raises
on a missing file, upload failure or transcription failure), `opt` the
outcome of `optimize_specification` (which raises on a network fault or
when `json.loads` fails, and otherwise yields the parsed dictionary).
The five state assignments on lines 118-122 run in order; each first
indexes `spec_data` (raising `KeyError` when the key is absent) and only
then writes the state field, so a raise leaves the earlier fields
written. -/
def agent1Execute (tr : Except PyExn String) (opt : Except PyExn SpecDict)
    (s0 : ProjectState) : ProjectState × Option PyExn :=
  let s := { s0 with current_agent := "agent_1_transcription"
                     agent_1_status := AgentStatus.in_progress }
  match tr with
  | Except.error e => (agent1Fail s e, some e)
  | Except.ok transcript =>
    let s := { s with transcript := some transcript }
    match opt with
    | Except.error e => (agent1Fail s e, some e)
    | Except.ok spec_data =>
      match spec_data.project_name with
      | none => (agent1Fail s (PyExn.keyError "project_name"),
                 some (PyExn.keyError "project_name"))
      | some v1 =>
        let s := { s with project_name := some v1 }
        match spec_data.project_description with
        | none => (agent1Fail s (PyExn.keyError "project_description"),
                   some (PyExn.keyError "project_description"))
        | some v2 =>
          let s := { s with project_description := some v2 }
          match spec_data.dev_specification with
          | none => (agent1Fail s (PyExn.keyError "dev_specification"),
                     some (PyExn.keyError "dev_specification"))
          | some v3 =>
            let s := { s with dev_specification := some v3 }
            match spec_data.tech_requirements with
            | none => (agent1Fail s (PyExn.keyError "tech_requirements"),
                       some (PyExn.keyError "tech_requirements"))
            | some v4 =>
              let s := { s with tech_requirements := some v4 }
              match spec_data.features with
              | none => (agent1Fail s (PyExn.keyError "features"),
                         some (PyExn.keyError "features"))
              | some v5 =>
                let s := { s with features := some v5 }
                ({ s with agent_1_status := AgentStatus.completed }, none)

/-- `should_continue_after_agent1` (`src/workflow.py`, lines 8-13). -/
def should_continue_after_agent1 (s : ProjectState) : String :=
  if s.agent_1_status = AgentStatus.completed then "agent_2" else "error_handler"

/-- `should_continue_after_agent2` (`src/workflow.py`, lines 16-21). -/
def should_continue_after_agent2 (s : ProjectState) : String :=
  if s.agent_2_status = AgentStatus.completed then "agent_3" else "error_handler"

/-- `should_continue_after_agent3` (`src/workflow.py`, lines 24-29). -/
def should_continue_after_agent3 (s : ProjectState) : String :=
  if s.agent_3_status = AgentStatus.completed then "end" else "error_handler"

/-- `error_handler_node` (`src/workflow.py`, lines 32-43): logs, then
marks the run as not completed. -/
def error_handler_node (s : ProjectState) : ProjectState :=
  { s with completed := false }

/-- Modelled from the spec: `src/agents/agent2_repo_creation.py` is
imported by `src/agents/__init__.py` but is not present under `src/`.
Per spec §4.2 the stage, given the structured specification, creates a
remote repository and a local clone and exposes `repo_url`,
`repo_owner`, `local_repo_path` and `claude_md_content`; on failure it
sets its status to `failed` with a diagnostic and (per §7) re-raises.
One run's outcome is one value of this type. -/
inductive Agent2Outcome
  | ok (repo_url repo_owner local_repo_path claude_md_content : String)
  | fail (diag : String)
deriving Repr, DecidableEq

/-- Modelled from the spec: the Stage 2 node (see `Agent2Outcome`).  It
follows the per-stage pattern of §3/§7: status `in_progress` at entry,
then either all four output fields written and status `completed`, or
status `failed`, one diagnostic appended to `errors`, and the fault
re-raised. -/
def agent2Execute (o : Agent2Outcome) (s0 : ProjectState) :
    ProjectState × Option PyExn :=
  let s := { s0 with current_agent := "agent_2_repo_creation"
                     agent_2_status := AgentStatus.in_progress }
  match o with
  | Agent2Outcome.ok u ow p md =>
      ({ s with repo_url := some u
                repo_owner := some ow
                local_repo_path := some p
                claude_md_content := some md
                agent_2_status := AgentStatus.completed }, none)
  | Agent2Outcome.fail d =>
      ({ s with agent_2_status := AgentStatus.failed
                errors := s.errors ++ ["Agent 2 failed: " ++ d] },
       some (PyExn.other d))

/-- Python `', '.join(xs)`. -/
def joinComma (xs : List String) : String := String.intercalate ", " xs

/-- The numbered feature list built in `create_claude_prompt`
(`src/agents/agent3_sprint_init.py`, line 40). -/
def numberedFeatures (feats : List String) : String :=
  String.intercalate "\n"
    (feats.enum.map (fun p => toString (p.1 + 1) ++ ". " ++ p.2))

/-- Default used for `state.get("tech_requirements", {})` followed by
`.get('languages', [])` etc. in `create_claude_prompt`
(`src/agents/agent3_sprint_init.py`, lines 21 and 34-37). -/
def defaultTechReq : TechRequirements :=
  { languages := [], frameworks := [], dependencies := []
    architecture := "Not specified" }

/-- `SprintInitAgent.create_claude_prompt`
(`src/agents/agent3_sprint_init.py`, lines 19-68).  The f-string indexes
`state['project_name']`, `state['project_description']` and
`state['dev_specification']` directly (raising `KeyError` when absent)
and uses `.get` with defaults for `tech_requirements` and `features`. -/
def createClaudePrompt (s : ProjectState) : Except PyExn String :=
  match s.project_name with
  | none => Except.error (PyExn.keyError "project_name")
  | some pn =>
    match s.project_description with
    | none => Except.error (PyExn.keyError "project_description")
    | some pd =>
      match s.dev_specification with
      | none => Except.error (PyExn.keyError "dev_specification")
      | some ds =>
        let tech_req := s.tech_requirements.getD defaultTechReq
        let feats := s.features.getD []
        Except.ok
          ("Initialize this project based on the following specification.\n\n" ++
           "PROJECT: " ++ pn ++ "\n\n" ++
           "DESCRIPTION:\n" ++ pd ++ "\n\n" ++
           "FULL SPECIFICATION:\n" ++ ds ++ "\n\n" ++
           "TECHNICAL REQUIREMENTS:\n" ++
           "- Languages: " ++ joinComma tech_req.languages ++ "\n" ++
           "- Frameworks: " ++ joinComma tech_req.frameworks ++ "\n" ++
           "- Dependencies: " ++ joinComma tech_req.dependencies ++ "\n" ++
           "- Architecture: " ++ tech_req.architecture ++ "\n\n" ++
           "FEATURES TO IMPLEMENT:\n" ++ numberedFeatures feats ++ "\n\n" ++
           "TASKS:\n" ++
           "1. Analyze the CLAUDE.md file in this repository for full context\n" ++
           "2. Set up the project structure based on the technical requirements\n" ++
           "3. Initialize package management (requirements.txt, package.json, etc.)\n" ++
           "4. Create initial source code files with proper structure\n" ++
           "5. Implement core functionality for the main features\n" ++
           "6. Add comprehensive README.md\n" ++
           "7. Set up testing framework with initial tests\n" ++
           "8. Create .gitignore file appropriate for the tech stack\n" ++
           "9. Add any necessary configuration files\n" ++
           "10. Make meaningful commits as you go\n" ++
           "11. Ensure the project is in a working, runnable state\n\n" ++
           "Begin the development sprint now.\n")

/-- Outcome of the `subprocess.run` call on the `claude` CLI
(`src/agents/agent3_sprint_init.py`, lines 96-101): either the process
completed with a return code and captured output, or the 600-second
timeout expired (raising `subprocess.TimeoutExpired`). -/
inductive SubOutcome
  | completed (returncode : Nat) (stdout stderr : String)
  | timeout
deriving Repr, DecidableEq

/-- Oracle for one call of `execute_claude_code`: a possible fault in
`os.chdir(repo_path)` (cwd unchanged), a possible fault in the
temporary-file handling (cwd already moved), and the subprocess
outcome. -/
structure CCCall where
  chdirFault : Option PyExn
  tmpFault : Option PyExn
  sub : SubOutcome
deriving Repr, DecidableEq

/-- The dict returned by `execute_claude_code` on success
(`src/agents/agent3_sprint_init.py`, lines 109-113). -/
structure CCResult where
  stdout : String
  stderr : String
  returncode : Nat
deriving Repr, DecidableEq

/-- `SprintInitAgent.execute_claude_code`
(`src/agents/agent3_sprint_init.py`, lines 70-117), returning the
result-or-exception together with the process working directory after
the call.  The body runs under `try ... finally: os.chdir(original_cwd)`
so the second component is computed by applying the `finally` block to
every exit path of the body. -/
def executeClaudeCode (c : CCCall) (prompt repo_path cwd0 : String) :
    Except PyExn CCResult × String :=
  let original_cwd := cwd0
  let body : Except PyExn CCResult × String :=
    match c.chdirFault with
    | some e => (Except.error e, cwd0)
    | none =>
      -- cwd is now repo_path
      match c.tmpFault with
      | some e => (Except.error e, repo_path)
      | none =>
        match c.sub with
        | SubOutcome.timeout => (Except.error PyExn.timeoutExpired, repo_path)
        | SubOutcome.completed rc out err =>
          if rc ≠ 0 then
            (Except.error
              (PyExn.runtimeError ("Claude Code failed: " ++ err)), repo_path)
          else
            (Except.ok { stdout := out, stderr := err, returncode := rc },
             repo_path)
  -- finally: os.chdir(original_cwd)
  (body.1, original_cwd)

/-- Outcome of one `git` invocation inside `get_commit_info`: `error`
for a non-zero exit (`check=True` raises `CalledProcessError`), `ok`
with the captured stdout otherwise. -/
structure GitCalls where
  revParse : Except Unit String
  lsFiles : Except Unit String
deriving Repr

/-- Python `str.strip()` (both-ends whitespace removal), modelled
structurally on the character list so that it evaluates in the
kernel. -/
def pyStrip (s : String) : String :=
  String.mk (((s.data.dropWhile Char.isWhitespace).reverse.dropWhile
    Char.isWhitespace).reverse)

/-- Splitting a character list at every occurrence of a separator
(Python `str.split(sep)` semantics for a one-character separator: the
empty string yields `[""]`, a trailing separator yields a trailing
empty piece). -/
def splitChar (sep : Char) : List Char → List (List Char)
  | [] => [[]]
  | c :: cs =>
    if c = sep then [] :: splitChar sep cs
    else
      match splitChar sep cs with
      | [] => [[c]]
      | g :: gs => (c :: g) :: gs

/-- Python `s.split('\n')`. -/
def pySplitNl (s : String) : List String :=
  (splitChar '\n' s.data).map String.mk

/-- The dict returned by `get_commit_info`. -/
structure CommitInfo where
  commit_sha : Option String
  files : List String
deriving Repr, DecidableEq

/-- `SprintInitAgent.get_commit_info`
(`src/agents/agent3_sprint_init.py`, lines 119-147): two `git` queries
under one `try`; a `CalledProcessError` from either yields
`{commit_sha: None, files: []}` instead of raising. -/
def get_commit_info (g : GitCalls) : CommitInfo :=
  match g.revParse with
  | Except.error _ => { commit_sha := none, files := [] }
  | Except.ok out1 =>
    match g.lsFiles with
    | Except.error _ => { commit_sha := none, files := [] }
    | Except.ok out2 =>
      { commit_sha := some (pyStrip out1), files := pySplitNl (pyStrip out2) }

/-- The fixed manifest list in `SprintInitAgent.execute`
(`src/agents/agent3_sprint_init.py`, lines 178-181). -/
def dependency_files : List String :=
  ["requirements.txt", "package.json", "Cargo.toml",
   "go.mod", "pom.xml", "Gemfile"]

/-- The two `except` blocks of `SprintInitAgent.execute`
(`src/agents/agent3_sprint_init.py`, lines 201-211):
`subprocess.TimeoutExpired` gets the timeout diagnostic, every other
exception the generic one; both set the status to `failed`. -/
def agent3Fail (s : ProjectState) (e : PyExn) : ProjectState :=
  match e with
  | PyExn.timeoutExpired =>
      { s with agent_3_status := AgentStatus.failed
               errors := s.errors ++
                 ["Agent 3 timeout: Claude Code took too long"] }
  | e =>
      { s with agent_3_status := AgentStatus.failed
               errors := s.errors ++ ["Agent 3 failed: " ++ strPyExn e] }

/-- Oracle for one run of Stage 3. -/
structure Agent3Oracle where
  cc : CCCall
  git : GitCalls
deriving Repr

/-- The success banner built on lines 191-198 of
`src/agents/agent3_sprint_init.py`. -/
def successMessage (local_repo_path repo_url : String) : String :=
  "\n✅ Project initialized successfully!\n\n📍 Local: " ++ local_repo_path ++
  "\n🌐 Remote: " ++ repo_url ++
  "\n\nThe project has been fully set up and is ready for development.\n"

/-- `SprintInitAgent.execute` (`src/agents/agent3_sprint_init.py`,
lines 149-213).  Notable source details reproduced here: the prompt and
`state["local_repo_path"]` are read before the subprocess call (raising
`KeyError` when absent); `initial_commit_sha` and `files_created` are
written before the progress print slices
`commit_info['commit_sha'][:8]`, which raises `TypeError` when the sha
is `None`; the status is set to `completed` before the success message
reads `state['repo_url']`, so a missing `repo_url` flips it back to
`failed`; `completed = True` is the last statement of the `try`. -/
def agent3Execute (o : Agent3Oracle) (cwd0 : String) (s0 : ProjectState) :
    ProjectState × Option PyExn :=
  let s := { s0 with current_agent := "agent_3_sprint_init"
                     agent_3_status := AgentStatus.in_progress }
  match createClaudePrompt s with
  | Except.error e => (agent3Fail s e, some e)
  | Except.ok prompt =>
    match s.local_repo_path with
    | none => (agent3Fail s (PyExn.keyError "local_repo_path"),
               some (PyExn.keyError "local_repo_path"))
    | some repo_path =>
      match (executeClaudeCode o.cc prompt repo_path cwd0).1 with
      | Except.error e => (agent3Fail s e, some e)
      | Except.ok _result =>
        let commit_info := get_commit_info o.git
        let s := { s with initial_commit_sha := commit_info.commit_sha
                          files_created := some commit_info.files }
        match commit_info.commit_sha with
        | none =>
            -- print(f"... {commit_info['commit_sha'][:8]}"): None[:8] raises
            (agent3Fail s (PyExn.typeError "NoneType is not subscriptable"),
             some (PyExn.typeError "NoneType is not subscriptable"))
        | some _sha =>
          let has_deps :=
            dependency_files.any (fun dep_file => commit_info.files.contains dep_file)
          let s := { s with dependencies_installed := some has_deps }
          let s := { s with agent_3_status := AgentStatus.completed }
          match s.repo_url with
          | none => (agent3Fail s (PyExn.keyError "repo_url"),
                     some (PyExn.keyError "repo_url"))
          | some repo_url =>
            let s :=
              { s with success_message := some (successMessage repo_path repo_url) }
            ({ s with completed := true }, none)

/-- The node set of the graph built by `create_workflow`
(`src/workflow.py`, lines 46-93). -/
inductive Node
  | agent_1
  | agent_2
  | agent_3
  | error_handler
  | END
deriving Repr, DecidableEq

/-- The edge function of the graph built by `create_workflow`
(`src/workflow.py`, lines 62-91): each stage node has conditional edges
keyed by the string its `should_continue_after_agentN` router returns;
`error_handler` has the unconditional edge to `END`; `END` is
terminal. -/
def nextNode (n : Node) (s : ProjectState) : Option Node :=
  match n with
  | Node.agent_1 =>
      if should_continue_after_agent1 s = "agent_2" then some Node.agent_2
      else if should_continue_after_agent1 s = "error_handler" then
        some Node.error_handler
      else none
  | Node.agent_2 =>
      if should_continue_after_agent2 s = "agent_3" then some Node.agent_3
      else if should_continue_after_agent2 s = "error_handler" then
        some Node.error_handler
      else none
  | Node.agent_3 =>
      if should_continue_after_agent3 s = "end" then some Node.END
      else if should_continue_after_agent3 s = "error_handler" then
        some Node.error_handler
      else none
  | Node.error_handler => some Node.END
  | Node.END => none

/-- Topological rank of the graph's nodes: every edge strictly increases
it, so the graph has no cycle and no backward edge. -/
def nodeRank : Node → Nat
  | Node.agent_1 => 0
  | Node.agent_2 => 1
  | Node.agent_3 => 2
  | Node.error_handler => 3
  | Node.END => 4

/-- Oracle for one whole run of the compiled workflow. -/
structure RunOracle where
  tr : Except PyExn String
  opt : Except PyExn SpecDict
  ag2 : Agent2Outcome
  ag3 : Agent3Oracle
deriving Repr

/-- One run of the compiled graph (`compile_workflow`/`app.invoke` as
wired by `create_workflow`): the entry point is `agent_1`; after a node
returns its router picks the next edge; an exception raised inside a
node propagates out of the run (the `error_handler` node is not executed
on that path), with the mutated shared record as the run's final
state. -/
def runWorkflow (o : RunOracle) (audio cwd0 : String) :
    ProjectState × Option PyExn :=
  let r1 := agent1Execute o.tr o.opt (create_initial_state audio)
  match r1.2 with
  | some e => (r1.1, some e)
  | none =>
    if should_continue_after_agent1 r1.1 = "agent_2" then
      let r2 := agent2Execute o.ag2 r1.1
      match r2.2 with
      | some e => (r2.1, some e)
      | none =>
        if should_continue_after_agent2 r2.1 = "agent_3" then
          let r3 := agent3Execute o.ag3 cwd0 r2.1
          match r3.2 with
          | some e => (r3.1, some e)
          | none =>
            if should_continue_after_agent3 r3.1 = "end" then (r3.1, none)
            else (error_handler_node r3.1, none)
        else (error_handler_node r2.1, none)
    else (error_handler_node r1.1, none)

/-! ### Helper lemmas -/

lemma agent1Fail_a1 (s : ProjectState) (e : PyExn) :
    (agent1Fail s e).agent_1_status = AgentStatus.failed := rfl

lemma agent1Fail_frame (s : ProjectState) (e : PyExn) :
    (agent1Fail s e).agent_2_status = s.agent_2_status ∧
    (agent1Fail s e).agent_3_status = s.agent_3_status ∧
    (agent1Fail s e).completed = s.completed := ⟨rfl, rfl, rfl⟩

lemma agent1Fail_errors (s : ProjectState) (e : PyExn) :
    (agent1Fail s e).errors = s.errors ++ ["Agent 1 failed: " ++ strPyExn e] := rfl

lemma agent3Fail_a3 (s : ProjectState) (e : PyExn) :
    (agent3Fail s e).agent_3_status = AgentStatus.failed := by
  cases e <;> rfl

lemma agent3Fail_frame (s : ProjectState) (e : PyExn) :
    (agent3Fail s e).agent_1_status = s.agent_1_status ∧
    (agent3Fail s e).agent_2_status = s.agent_2_status ∧
    (agent3Fail s e).completed = s.completed := by
  cases e <;> exact ⟨rfl, rfl, rfl⟩

lemma agent3Fail_errors (s : ProjectState) (e : PyExn) :
    ∃ d, (agent3Fail s e).errors = s.errors ++ [d] := by
  cases e <;> exact ⟨_, rfl⟩

/-- Behaviour of Stage 1 relevant to the controller: it owns
`agent_1_status`, leaves the other statuses and the `completed` flag
untouched, returns normally exactly when it ends `completed`, and ends
`failed` whenever it raises. -/
lemma agent1_spec (tr : Except PyExn String) (opt : Except PyExn SpecDict)
    (s : ProjectState) :
    (agent1Execute tr opt s).1.agent_2_status = s.agent_2_status ∧
    (agent1Execute tr opt s).1.agent_3_status = s.agent_3_status ∧
    (agent1Execute tr opt s).1.completed = s.completed ∧
    ((agent1Execute tr opt s).2 = none ↔
      (agent1Execute tr opt s).1.agent_1_status = AgentStatus.completed) ∧
    (∀ e, (agent1Execute tr opt s).2 = some e →
      (agent1Execute tr opt s).1.agent_1_status = AgentStatus.failed) := by
  cases tr with
  | error e => simp [agent1Execute, agent1Fail]
  | ok t =>
    cases opt with
    | error e => simp [agent1Execute, agent1Fail]
    | ok d =>
      obtain ⟨pn, pd, ds, tq, fs⟩ := d
      cases pn <;> cases pd <;> cases ds <;> cases tq <;> cases fs <;>
        simp [agent1Execute, agent1Fail]

/-- Behaviour of Stage 2 (spec-modelled) relevant to the controller. -/
lemma agent2_spec (o : Agent2Outcome) (s : ProjectState) :
    (agent2Execute o s).1.agent_1_status = s.agent_1_status ∧
    (agent2Execute o s).1.agent_3_status = s.agent_3_status ∧
    (agent2Execute o s).1.completed = s.completed ∧
    ((agent2Execute o s).2 = none ↔
      (agent2Execute o s).1.agent_2_status = AgentStatus.completed) ∧
    (∀ e, (agent2Execute o s).2 = some e →
      (agent2Execute o s).1.agent_2_status = AgentStatus.failed) := by
  cases o <;> simp [agent2Execute]

/-- Behaviour of Stage 3 relevant to the controller: it owns
`agent_3_status`; a normal return ends `completed` with the run's
`completed` flag set; a raise ends `failed` with the `completed` flag
untouched. -/
lemma agent3_spec (o : Agent3Oracle) (cwd0 : String) (s : ProjectState) :
    (agent3Execute o cwd0 s).1.agent_1_status = s.agent_1_status ∧
    (agent3Execute o cwd0 s).1.agent_2_status = s.agent_2_status ∧
    ((agent3Execute o cwd0 s).2 = none →
      (agent3Execute o cwd0 s).1.agent_3_status = AgentStatus.completed ∧
      (agent3Execute o cwd0 s).1.completed = true) ∧
    (∀ e, (agent3Execute o cwd0 s).2 = some e →
      (agent3Execute o cwd0 s).1.agent_3_status = AgentStatus.failed ∧
      (agent3Execute o cwd0 s).1.completed = s.completed) := by
  unfold agent3Execute
  dsimp only
  split
  · simp [agent3Fail_a3, agent3Fail_frame s _ |>.1, (agent3Fail_frame _ _).1,
      (agent3Fail_frame _ _).2.1, (agent3Fail_frame _ _).2.2]
  · split
    · simp [agent3Fail_a3, (agent3Fail_frame _ _).1, (agent3Fail_frame _ _).2.1,
        (agent3Fail_frame _ _).2.2]
    · split
      · simp [agent3Fail_a3, (agent3Fail_frame _ _).1, (agent3Fail_frame _ _).2.1,
          (agent3Fail_frame _ _).2.2]
      · split
        · simp [agent3Fail_a3, (agent3Fail_frame _ _).1, (agent3Fail_frame _ _).2.1,
            (agent3Fail_frame _ _).2.2]
        · split
          · simp [agent3Fail_a3, (agent3Fail_frame _ _).1, (agent3Fail_frame _ _).2.1,
              (agent3Fail_frame _ _).2.2]
          · simp

/-- Each stage router returns one of its two edge keys. -/
lemma scaa1_cases (s : ProjectState) :
    should_continue_after_agent1 s = "agent_2" ∨
    should_continue_after_agent1 s = "error_handler" := by
  unfold should_continue_after_agent1
  split
  · exact Or.inl rfl
  · exact Or.inr rfl

lemma scaa2_cases (s : ProjectState) :
    should_continue_after_agent2 s = "agent_3" ∨
    should_continue_after_agent2 s = "error_handler" := by
  unfold should_continue_after_agent2
  split
  · exact Or.inl rfl
  · exact Or.inr rfl

lemma scaa3_cases (s : ProjectState) :
    should_continue_after_agent3 s = "end" ∨
    should_continue_after_agent3 s = "error_handler" := by
  unfold should_continue_after_agent3
  split
  · exact Or.inl rfl
  · exact Or.inr rfl

/-! ### Claim theorems -/

/-- C4: `execute_claude_code` restores the process working directory to
its pre-call value on every exit path — for every repository path and
every outcome of the chdir, the temporary-file handling and the
coding-agent subprocess (normal return, non-zero exit, timeout, other
fault), the directory after the call equals the directory current when
it was entered. -/
theorem c4_cwd_restored_on_all_paths (c : CCCall) (prompt repo_path cwd0 : String) :
    (executeClaudeCode c prompt repo_path cwd0).2 = cwd0 := rfl

/-- C10: `get_commit_info` never propagates a non-zero exit of either
git command: it returns `{commit_sha := none, files := []}` instead of
raising (its translation is a total function into `CommitInfo`, with no
exception component). -/
theorem c10_git_failure_swallowed (g : GitCalls)
    (h : g.revParse = Except.error () ∨ g.lsFiles = Except.error ()) :
    get_commit_info g = { commit_sha := none, files := [] } := by
  obtain ⟨rp, ls⟩ := g
  rcases h with h | h
  · simp only at h
    subst h
    rfl
  · simp only at h
    subst h
    cases rp <;> rfl

theorem c10_git_failure_swallowed_witness :
    get_commit_info ⟨Except.error (), Except.ok "README.md"⟩ =
      { commit_sha := none, files := [] } :=
  c10_git_failure_swallowed ⟨Except.error (), Except.ok "README.md"⟩ (Or.inl rfl)

/-- C3: the controller's transition function advances `agent_1 →
agent_2 → agent_3 → END` exactly when the returning stage's own status
equals `completed` and moves to `error_handler` otherwise;
`error_handler` forces `completed = false` and transitions
unconditionally to `END`; and every edge strictly increases the
topological rank `nodeRank`, so the graph has no retry, no backward
transition and no cycle. -/
theorem c3_transition_function :
    (∀ s : ProjectState,
      (nextNode Node.agent_1 s = some Node.agent_2 ↔
        s.agent_1_status = AgentStatus.completed) ∧
      (nextNode Node.agent_1 s = some Node.error_handler ↔
        s.agent_1_status ≠ AgentStatus.completed) ∧
      (nextNode Node.agent_2 s = some Node.agent_3 ↔
        s.agent_2_status = AgentStatus.completed) ∧
      (nextNode Node.agent_2 s = some Node.error_handler ↔
        s.agent_2_status ≠ AgentStatus.completed) ∧
      (nextNode Node.agent_3 s = some Node.END ↔
        s.agent_3_status = AgentStatus.completed) ∧
      (nextNode Node.agent_3 s = some Node.error_handler ↔
        s.agent_3_status ≠ AgentStatus.completed) ∧
      (error_handler_node s).completed = false ∧
      nextNode Node.error_handler s = some Node.END) ∧
    (∀ (n : Node) (s : ProjectState) (n' : Node),
      nextNode n s = some n' → nodeRank n < nodeRank n') := by
  constructor
  · intro s
    cases h1 : s.agent_1_status <;> cases h2 : s.agent_2_status <;>
      cases h3 : s.agent_3_status <;>
      simp [nextNode, should_continue_after_agent1, should_continue_after_agent2,
        should_continue_after_agent3, error_handler_node, h1, h2, h3]
  · intro n s n' h
    cases n with
    | agent_1 =>
      rcases scaa1_cases s with hc | hc <;> simp [nextNode, hc] at h <;>
        subst h <;> decide
    | agent_2 =>
      rcases scaa2_cases s with hc | hc <;> simp [nextNode, hc] at h <;>
        subst h <;> decide
    | agent_3 =>
      rcases scaa3_cases s with hc | hc <;> simp [nextNode, hc] at h <;>
        subst h <;> decide
    | error_handler =>
      simp [nextNode] at h
      subst h
      decide
    | END => simp [nextNode] at h

theorem c3_transition_function_witness :
    nodeRank Node.error_handler < nodeRank Node.END :=
  c3_transition_function.2 Node.error_handler (create_initial_state "spec.mp3")
    Node.END rfl

/-- C1: for every run of the workflow, the final state satisfies
`completed = true` iff all three stage statuses equal `completed`;
moreover `completed` is never written by Stages 1 and 2, and the error
sink always forces it to `false` (so it is set `true` only by Stage 3's
success path). -/
theorem c1_completed_iff_all_stages (o : RunOracle) (audio cwd0 : String) :
    (((runWorkflow o audio cwd0).1.completed = true) ↔
      ((runWorkflow o audio cwd0).1.agent_1_status = AgentStatus.completed ∧
       (runWorkflow o audio cwd0).1.agent_2_status = AgentStatus.completed ∧
       (runWorkflow o audio cwd0).1.agent_3_status = AgentStatus.completed)) ∧
    (∀ s : ProjectState, (error_handler_node s).completed = false) ∧
    (∀ (tr : Except PyExn String) (opt : Except PyExn SpecDict) (s : ProjectState),
      (agent1Execute tr opt s).1.completed = s.completed) ∧
    (∀ (o2 : Agent2Outcome) (s : ProjectState),
      (agent2Execute o2 s).1.completed = s.completed) := by
  refine ⟨?_, fun s => rfl, fun tr opt s => (agent1_spec tr opt s).2.2.1,
    fun o2 s => (agent2_spec o2 s).2.2.1⟩
  obtain ⟨f12, f13, fc1, iff1, fail1⟩ :=
    agent1_spec o.tr o.opt (create_initial_state audio)
  have hinit : (create_initial_state audio).completed = false := rfl
  unfold runWorkflow
  dsimp only
  cases h1 : (agent1Execute o.tr o.opt (create_initial_state audio)).2 with
  | some e =>
    have hs := fail1 e h1
    simp [fc1, hs, hinit]
  | none =>
    have hc1 : (agent1Execute o.tr o.opt (create_initial_state audio)).1.agent_1_status
        = AgentStatus.completed := iff1.mp h1
    have hr1 : should_continue_after_agent1
        (agent1Execute o.tr o.opt (create_initial_state audio)).1 = "agent_2" := by
      simp [should_continue_after_agent1, hc1]
    dsimp only
    rw [if_pos hr1]
    obtain ⟨f21, f23, fc2, iff2, fail2⟩ :=
      agent2_spec o.ag2 (agent1Execute o.tr o.opt (create_initial_state audio)).1
    cases h2 : (agent2Execute o.ag2
        (agent1Execute o.tr o.opt (create_initial_state audio)).1).2 with
    | some e =>
      have hs := fail2 e h2
      simp [fc2, fc1, hs, hinit]
    | none =>
      have hc2 : (agent2Execute o.ag2
          (agent1Execute o.tr o.opt (create_initial_state audio)).1).1.agent_2_status
          = AgentStatus.completed := iff2.mp h2
      have hr2 : should_continue_after_agent2
          (agent2Execute o.ag2
            (agent1Execute o.tr o.opt (create_initial_state audio)).1).1
          = "agent_3" := by
        simp [should_continue_after_agent2, hc2]
      dsimp only
      rw [if_pos hr2]
      obtain ⟨g31, g32, gok, gfail⟩ :=
        agent3_spec o.ag3 cwd0
          (agent2Execute o.ag2
            (agent1Execute o.tr o.opt (create_initial_state audio)).1).1
      cases h3 : (agent3Execute o.ag3 cwd0
          (agent2Execute o.ag2
            (agent1Execute o.tr o.opt (create_initial_state audio)).1).1).2 with
      | some e =>
        obtain ⟨hst, hcp⟩ := gfail e h3
        simp [hst, hcp, fc2, fc1, hinit]
      | none =>
        obtain ⟨hst, hcp⟩ := gok h3
        have hr3 : should_continue_after_agent3
            (agent3Execute o.ag3 cwd0
              (agent2Execute o.ag2
                (agent1Execute o.tr o.opt (create_initial_state audio)).1).1).1
            = "end" := by
          simp [should_continue_after_agent3, hst]
        dsimp only
        rw [if_pos hr3]
        simp [hcp, hst, g31, g32, f21, hc1, hc2]

/-- Characterization of a normal (non-raising) return of Stage 3: both
git queries succeeded, and the record holds the trimmed `rev-parse`
output, the split `ls-files` output, and the manifest heuristic over
that file list, with status `completed`. -/
lemma agent3_success (o : Agent3Oracle) (cwd0 : String) (s : ProjectState)
    (hok : (agent3Execute o cwd0 s).2 = none) :
    ∃ out1 out2,
      o.git.revParse = Except.ok out1 ∧
      o.git.lsFiles = Except.ok out2 ∧
      (agent3Execute o cwd0 s).1.initial_commit_sha = some (pyStrip out1) ∧
      (agent3Execute o cwd0 s).1.files_created = some (pySplitNl (pyStrip out2)) ∧
      (agent3Execute o cwd0 s).1.dependencies_installed =
        some (dependency_files.any (fun d => (pySplitNl (pyStrip out2)).contains d)) ∧
      (agent3Execute o cwd0 s).1.agent_3_status = AgentStatus.completed := by
  obtain ⟨⟨cf, tf, sub⟩, grp, gls⟩ := o
  cases hpn : s.project_name with
  | none => simp [agent3Execute, createClaudePrompt, hpn] at hok
  | some pn =>
  cases hpd : s.project_description with
  | none => simp [agent3Execute, createClaudePrompt, hpn, hpd] at hok
  | some pd =>
  cases hds : s.dev_specification with
  | none => simp [agent3Execute, createClaudePrompt, hpn, hpd, hds] at hok
  | some ds =>
  cases hrp : s.local_repo_path with
  | none => simp [agent3Execute, createClaudePrompt, hpn, hpd, hds, hrp] at hok
  | some rp =>
  cases cf with
  | some e =>
    simp [agent3Execute, createClaudePrompt, executeClaudeCode,
      hpn, hpd, hds, hrp] at hok
  | none =>
  cases tf with
  | some e =>
    simp [agent3Execute, createClaudePrompt, executeClaudeCode,
      hpn, hpd, hds, hrp] at hok
  | none =>
  cases sub with
  | timeout =>
    simp [agent3Execute, createClaudePrompt, executeClaudeCode,
      hpn, hpd, hds, hrp] at hok
  | completed rc out err =>
  cases rc with
  | succ n =>
    simp [agent3Execute, createClaudePrompt, executeClaudeCode,
      hpn, hpd, hds, hrp] at hok
  | zero =>
  cases grp with
  | error u =>
    simp [agent3Execute, createClaudePrompt, executeClaudeCode, get_commit_info,
      hpn, hpd, hds, hrp] at hok
  | ok out1 =>
  cases gls with
  | error u =>
    simp [agent3Execute, createClaudePrompt, executeClaudeCode, get_commit_info,
      hpn, hpd, hds, hrp] at hok
  | ok out2 =>
  cases hru : s.repo_url with
  | none =>
    simp [agent3Execute, createClaudePrompt, executeClaudeCode, get_commit_info,
      hpn, hpd, hds, hrp, hru] at hok
  | some ru =>
    refine ⟨out1, out2, rfl, rfl, ?_, ?_, ?_, ?_⟩ <;>
      simp [agent3Execute, createClaudePrompt, executeClaudeCode, get_commit_info,
        hpn, hpd, hds, hrp, hru]

/-- The diagnostic appended by Stage 3's handlers: the timeout message
for `TimeoutExpired`, the generic `str(e)` message otherwise. -/
lemma agent3Fail_diag (s : ProjectState) (e : PyExn) :
    (e = PyExn.timeoutExpired ∧
      (agent3Fail s e).errors =
        s.errors ++ ["Agent 3 timeout: Claude Code took too long"]) ∨
    (e ≠ PyExn.timeoutExpired ∧
      (agent3Fail s e).errors = s.errors ++ ["Agent 3 failed: " ++ strPyExn e]) := by
  cases e with
  | timeoutExpired => exact Or.inl ⟨rfl, rfl⟩
  | runtimeError m => exact Or.inr ⟨by simp, rfl⟩
  | keyError k => exact Or.inr ⟨by simp, rfl⟩
  | typeError m => exact Or.inr ⟨by simp, rfl⟩
  | other m => exact Or.inr ⟨by simp, rfl⟩

/-- On every raising exit of Stage 3, exactly one diagnostic is appended
to `errors`: the timeout message when the raised exception is
`TimeoutExpired`, the generic message otherwise. -/
lemma agent3_raise_diag (o : Agent3Oracle) (cwd0 : String) (s : ProjectState)
    (ex : PyExn) (hex : (agent3Execute o cwd0 s).2 = some ex) :
    (ex = PyExn.timeoutExpired ∧
      (agent3Execute o cwd0 s).1.errors =
        s.errors ++ ["Agent 3 timeout: Claude Code took too long"]) ∨
    (ex ≠ PyExn.timeoutExpired ∧
      (agent3Execute o cwd0 s).1.errors =
        s.errors ++ ["Agent 3 failed: " ++ strPyExn ex]) := by
  obtain ⟨⟨cf, tf, sub⟩, grp, gls⟩ := o
  cases hpn : s.project_name with
  | none =>
    simp [agent3Execute, createClaudePrompt, hpn] at hex
    subst hex
    exact Or.inr ⟨by simp, by
      simp [agent3Execute, createClaudePrompt, agent3Fail, strPyExn, hpn]⟩
  | some pn =>
  cases hpd : s.project_description with
  | none =>
    simp [agent3Execute, createClaudePrompt, hpn, hpd] at hex
    subst hex
    exact Or.inr ⟨by simp, by
      simp [agent3Execute, createClaudePrompt, agent3Fail, strPyExn, hpn, hpd]⟩
  | some pd =>
  cases hds : s.dev_specification with
  | none =>
    simp [agent3Execute, createClaudePrompt, hpn, hpd, hds] at hex
    subst hex
    exact Or.inr ⟨by simp, by
      simp [agent3Execute, createClaudePrompt, agent3Fail, strPyExn, hpn, hpd, hds]⟩
  | some ds =>
  cases hrp : s.local_repo_path with
  | none =>
    simp [agent3Execute, createClaudePrompt, hpn, hpd, hds, hrp] at hex
    subst hex
    exact Or.inr ⟨by simp, by
      simp [agent3Execute, createClaudePrompt, agent3Fail, strPyExn,
        hpn, hpd, hds, hrp]⟩
  | some rp =>
  cases cf with
  | some e =>
    simp [agent3Execute, createClaudePrompt, executeClaudeCode,
      hpn, hpd, hds, hrp] at hex
    subst hex
    cases e <;>
      first
        | exact Or.inl ⟨rfl, by
            simp [agent3Execute, createClaudePrompt, executeClaudeCode,
              agent3Fail, hpn, hpd, hds, hrp]⟩
        | exact Or.inr ⟨by simp, by
            simp [agent3Execute, createClaudePrompt, executeClaudeCode,
              agent3Fail, strPyExn, hpn, hpd, hds, hrp]⟩
  | none =>
  cases tf with
  | some e =>
    simp [agent3Execute, createClaudePrompt, executeClaudeCode,
      hpn, hpd, hds, hrp] at hex
    subst hex
    cases e <;>
      first
        | exact Or.inl ⟨rfl, by
            simp [agent3Execute, createClaudePrompt, executeClaudeCode,
              agent3Fail, hpn, hpd, hds, hrp]⟩
        | exact Or.inr ⟨by simp, by
            simp [agent3Execute, createClaudePrompt, executeClaudeCode,
              agent3Fail, strPyExn, hpn, hpd, hds, hrp]⟩
  | none =>
  cases sub with
  | timeout =>
    simp [agent3Execute, createClaudePrompt, executeClaudeCode,
      hpn, hpd, hds, hrp] at hex
    subst hex
    exact Or.inl ⟨rfl, by
      simp [agent3Execute, createClaudePrompt, executeClaudeCode,
        agent3Fail, hpn, hpd, hds, hrp]⟩
  | completed rc out err =>
  cases rc with
  | succ n =>
    simp [agent3Execute, createClaudePrompt, executeClaudeCode,
      hpn, hpd, hds, hrp] at hex
    subst hex
    exact Or.inr ⟨by simp, by
      simp [agent3Execute, createClaudePrompt, executeClaudeCode,
        agent3Fail, strPyExn, hpn, hpd, hds, hrp]⟩
  | zero =>
  cases grp with
  | error u =>
    simp [agent3Execute, createClaudePrompt, executeClaudeCode, get_commit_info,
      hpn, hpd, hds, hrp] at hex
    subst hex
    exact Or.inr ⟨by simp, by
      simp [agent3Execute, createClaudePrompt, executeClaudeCode, get_commit_info,
        agent3Fail, strPyExn, hpn, hpd, hds, hrp]⟩
  | ok out1 =>
  cases gls with
  | error u =>
    simp [agent3Execute, createClaudePrompt, executeClaudeCode, get_commit_info,
      hpn, hpd, hds, hrp] at hex
    subst hex
    exact Or.inr ⟨by simp, by
      simp [agent3Execute, createClaudePrompt, executeClaudeCode, get_commit_info,
        agent3Fail, strPyExn, hpn, hpd, hds, hrp]⟩
  | ok out2 =>
  cases hru : s.repo_url with
  | none =>
    simp [agent3Execute, createClaudePrompt, executeClaudeCode, get_commit_info,
      hpn, hpd, hds, hrp, hru] at hex
    subst hex
    exact Or.inr ⟨by simp, by
      simp [agent3Execute, createClaudePrompt, executeClaudeCode, get_commit_info,
        agent3Fail, strPyExn, hpn, hpd, hds, hrp, hru]⟩
  | some ru =>
    simp [agent3Execute, createClaudePrompt, executeClaudeCode, get_commit_info,
      hpn, hpd, hds, hrp, hru] at hex

/-- C5: on every raising exit of Stage 3 the status becomes `failed` and
one diagnostic is appended (the timeout message exactly for
`TimeoutExpired`, the generic message otherwise), the exception being
re-raised; and once the stage has reached the subprocess (specification
fields and repository path present, no chdir/tempfile fault), a
subprocess timeout raises exactly `TimeoutExpired` and a non-zero exit
raises exactly the `RuntimeError` carrying the subprocess's stderr, so
the appended diagnostic contains that stderr. -/
theorem c5_stage3_fault_handling (o : Agent3Oracle) (cwd0 : String)
    (s : ProjectState) (ex : PyExn)
    (hex : (agent3Execute o cwd0 s).2 = some ex) :
    (agent3Execute o cwd0 s).1.agent_3_status = AgentStatus.failed ∧
    ((ex = PyExn.timeoutExpired ∧
        (agent3Execute o cwd0 s).1.errors =
          s.errors ++ ["Agent 3 timeout: Claude Code took too long"]) ∨
     (ex ≠ PyExn.timeoutExpired ∧
        (agent3Execute o cwd0 s).1.errors =
          s.errors ++ ["Agent 3 failed: " ++ strPyExn ex])) ∧
    (∀ pn pd ds rp, s.project_name = some pn → s.project_description = some pd →
      s.dev_specification = some ds → s.local_repo_path = some rp →
      o.cc.chdirFault = none → o.cc.tmpFault = none →
      ((o.cc.sub = SubOutcome.timeout → ex = PyExn.timeoutExpired) ∧
       (∀ n out err, o.cc.sub = SubOutcome.completed (n + 1) out err →
          ex = PyExn.runtimeError ("Claude Code failed: " ++ err) ∧
          ∃ p, (agent3Execute o cwd0 s).1.errors = s.errors ++ [p ++ err]))) := by
  refine ⟨((agent3_spec o cwd0 s).2.2.2 ex hex).1,
    agent3_raise_diag o cwd0 s ex hex, ?_⟩
  intro pn pd ds rp hpn hpd hds hrp hcf htf
  constructor
  · intro hsub
    simp [agent3Execute, createClaudePrompt, executeClaudeCode,
      hpn, hpd, hds, hrp, hcf, htf, hsub] at hex
    exact hex.symm
  · intro n out err hsub
    simp [agent3Execute, createClaudePrompt, executeClaudeCode,
      hpn, hpd, hds, hrp, hcf, htf, hsub] at hex
    refine ⟨hex.symm, "Agent 3 failed: " ++ "Claude Code failed: ", ?_⟩
    subst hex
    simp [agent3Execute, createClaudePrompt, executeClaudeCode, agent3Fail,
      strPyExn, hpn, hpd, hds, hrp, hcf, htf, hsub]
    rw [← String.append_assoc]
    rfl

/-- A concrete state as it stands when Stage 3 is entered on the happy
path (specification fields from Stage 1, repository fields from
Stage 2). -/
def testState : ProjectState :=
  { create_initial_state "spec.mp3" with
      transcript := some "dictated spec"
      project_name := some "demo-app"
      project_description := some "A demo."
      dev_specification := some "# Spec"
      tech_requirements := some defaultTechReq
      features := some ["feature one"]
      repo_url := some "https://example.com/demo-app.git"
      repo_owner := some "owner"
      local_repo_path := some "/tmp/demo-app"
      claude_md_content := some "# CLAUDE.md"
      agent_1_status := AgentStatus.completed
      agent_2_status := AgentStatus.completed }

/-- A fault-free coding-agent subprocess call. -/
def testCCOk : CCCall :=
  { chdirFault := none, tmpFault := none
    sub := SubOutcome.completed 0 "done" "" }

/-- Successful git queries: one commit, two tracked files. -/
def testGitOk : GitCalls :=
  { revParse := Except.ok "abc123\n"
    lsFiles := Except.ok "main.py\nrequirements.txt\n" }

def testO3 : Agent3Oracle := { cc := testCCOk, git := testGitOk }

/-- C6: on a successful Stage 3 run, `dependencies_installed` is
`true` iff at least one of the six fixed manifest filenames occurs as an
element of the tracked file list recorded in `files_created`. -/
theorem c6_dependencies_installed_iff (o : Agent3Oracle) (cwd0 : String)
    (s : ProjectState) (fs : List String)
    (hok : (agent3Execute o cwd0 s).2 = none)
    (hfs : (agent3Execute o cwd0 s).1.files_created = some fs) :
    ((agent3Execute o cwd0 s).1.dependencies_installed = some true ↔
      ∃ d, d ∈ dependency_files ∧ d ∈ fs) := by
  obtain ⟨out1, out2, hg1, hg2, hsha, hfc, hdi, hst⟩ := agent3_success o cwd0 s hok
  rw [hfs] at hfc
  injection hfc with hfc
  subst hfc
  rw [hdi]
  simp [List.any_eq_true]

theorem c6_dependencies_installed_iff_witness :
    (agent3Execute testO3 "/home" testState).2 = none ∧
    (agent3Execute testO3 "/home" testState).1.files_created =
      some ["main.py", "requirements.txt"] ∧
    ((agent3Execute testO3 "/home" testState).1.dependencies_installed = some true ↔
      ∃ d, d ∈ dependency_files ∧ d ∈ ["main.py", "requirements.txt"]) :=
  ⟨by decide, by decide,
    c6_dependencies_installed_iff testO3 "/home" testState
      ["main.py", "requirements.txt"] (by decide) (by decide)⟩

theorem c5_stage3_fault_handling_witness :
    (agent3Execute ⟨⟨none, none, SubOutcome.timeout⟩, testGitOk⟩ "/home" testState).2 =
      some PyExn.timeoutExpired ∧
    (agent3Execute ⟨⟨none, none, SubOutcome.timeout⟩, testGitOk⟩ "/home"
      testState).1.agent_3_status = AgentStatus.failed :=
  ⟨by decide,
    (c5_stage3_fault_handling ⟨⟨none, none, SubOutcome.timeout⟩, testGitOk⟩ "/home"
      testState PyExn.timeoutExpired (by decide)).1⟩

/-- A full run in which every stage succeeds but the `git rev-parse`
query prints only whitespace (exit code 0, empty stdout). -/
def c8Oracle : RunOracle :=
  { tr := Except.ok "dictated spec"
    opt := Except.ok
      { project_name := some "demo-app"
        project_description := some "A demo."
        dev_specification := some "# Spec"
        tech_requirements := some defaultTechReq
        features := some ["feature one"] }
    ag2 := Agent2Outcome.ok "https://example.com/demo-app.git" "owner"
      "/tmp/demo-app" "# CLAUDE.md"
    ag3 := { cc := testCCOk
             git := { revParse := Except.ok "", lsFiles := Except.ok "main.py" } } }

/-- C8 counterexample: a run in which all three stages succeed
(`completed = true`, all statuses `completed`) yet `initial_commit_sha`
is the empty string — Stage 3 stores the stripped stdout of
`git rev-parse` without checking it is non-empty, so the claim that a
successful run always has a non-empty identifier fails. -/
theorem c8_counterexample_empty_sha :
    (runWorkflow c8Oracle "spec.mp3" "/home").1.agent_1_status = AgentStatus.completed ∧
    (runWorkflow c8Oracle "spec.mp3" "/home").1.agent_2_status = AgentStatus.completed ∧
    (runWorkflow c8Oracle "spec.mp3" "/home").1.agent_3_status = AgentStatus.completed ∧
    (runWorkflow c8Oracle "spec.mp3" "/home").1.completed = true ∧
    (runWorkflow c8Oracle "spec.mp3" "/home").1.initial_commit_sha = some "" := by
  refine ⟨?_, ?_, ?_, ?_, ?_⟩ <;> decide

/-- C8 (amended): Stage 3 cannot finish with status `completed` while
`initial_commit_sha` is `None`: on every completed run the sha is the
stripped stdout of a successful `git rev-parse` call (a string that is,
however, not guaranteed to be non-empty). -/
theorem c8_amended_sha_never_none (o : Agent3Oracle) (cwd0 : String)
    (s : ProjectState)
    (h : (agent3Execute o cwd0 s).1.agent_3_status = AgentStatus.completed) :
    ∃ out1, o.git.revParse = Except.ok out1 ∧
      (agent3Execute o cwd0 s).1.initial_commit_sha = some (pyStrip out1) := by
  have hok : (agent3Execute o cwd0 s).2 = none := by
    cases h2 : (agent3Execute o cwd0 s).2 with
    | none => rfl
    | some e =>
      have hf := ((agent3_spec o cwd0 s).2.2.2 e h2).1
      rw [hf] at h
      exact absurd h (by decide)
  obtain ⟨out1, out2, hg1, hg2, hsha, hrest⟩ := agent3_success o cwd0 s hok
  exact ⟨out1, hg1, hsha⟩

theorem c8_amended_sha_never_none_witness :
    (agent3Execute testO3 "/home" testState).1.agent_3_status = AgentStatus.completed ∧
    ∃ out1, testO3.git.revParse = Except.ok out1 ∧
      (agent3Execute testO3 "/home" testState).1.initial_commit_sha =
        some (pyStrip out1) :=
  ⟨by decide, c8_amended_sha_never_none testO3 "/home" testState (by decide)⟩

/-- C2 counterexample: when the transcription call succeeds and the
extraction response parses to an object containing only
`project_name`, Stage 1 writes `project_name`, then raises `KeyError`
on `project_description` — leaving exactly one of the five fields set
with status `failed`, a partial subset the claim says can never occur. -/
theorem c2_counterexample_partial_fields :
    (agent1Execute (Except.ok "dictated spec")
      (Except.ok { project_name := some "demo-app", project_description := none,
                   dev_specification := none, tech_requirements := none,
                   features := none })
      (create_initial_state "spec.mp3")).1.project_name = some "demo-app" ∧
    (agent1Execute (Except.ok "dictated spec")
      (Except.ok { project_name := some "demo-app", project_description := none,
                   dev_specification := none, tech_requirements := none,
                   features := none })
      (create_initial_state "spec.mp3")).1.project_description = none ∧
    (agent1Execute (Except.ok "dictated spec")
      (Except.ok { project_name := some "demo-app", project_description := none,
                   dev_specification := none, tech_requirements := none,
                   features := none })
      (create_initial_state "spec.mp3")).1.dev_specification = none ∧
    (agent1Execute (Except.ok "dictated spec")
      (Except.ok { project_name := some "demo-app", project_description := none,
                   dev_specification := none, tech_requirements := none,
                   features := none })
      (create_initial_state "spec.mp3")).1.tech_requirements = none ∧
    (agent1Execute (Except.ok "dictated spec")
      (Except.ok { project_name := some "demo-app", project_description := none,
                   dev_specification := none, tech_requirements := none,
                   features := none })
      (create_initial_state "spec.mp3")).1.features = none ∧
    (agent1Execute (Except.ok "dictated spec")
      (Except.ok { project_name := some "demo-app", project_description := none,
                   dev_specification := none, tech_requirements := none,
                   features := none })
      (create_initial_state "spec.mp3")).1.agent_1_status = AgentStatus.failed := by
  refine ⟨?_, ?_, ?_, ?_, ?_, ?_⟩ <;> decide

/-- C2 (amended): for every input state in which none of the five
specification fields is set (as at workflow entry) and every outcome of
the two remote calls, either Stage 1 returns normally with all five
fields set and status `completed`, or it raises with status `failed`
and the fields that are set form an initial segment of the assignment
order (`project_name`, `project_description`, `dev_specification`,
`tech_requirements`, `features`) — a proper nonempty segment arising
exactly when the parsed response contains an early key but lacks a
later one. -/
theorem c2_amended_fields_initial_segment (tr : Except PyExn String)
    (opt : Except PyExn SpecDict) (s : ProjectState)
    (h1 : s.project_name = none) (h2 : s.project_description = none)
    (h3 : s.dev_specification = none) (h4 : s.tech_requirements = none)
    (h5 : s.features = none) :
    ((agent1Execute tr opt s).2 = none ∧
      (agent1Execute tr opt s).1.agent_1_status = AgentStatus.completed ∧
      (agent1Execute tr opt s).1.project_name.isSome = true ∧
      (agent1Execute tr opt s).1.project_description.isSome = true ∧
      (agent1Execute tr opt s).1.dev_specification.isSome = true ∧
      (agent1Execute tr opt s).1.tech_requirements.isSome = true ∧
      (agent1Execute tr opt s).1.features.isSome = true) ∨
    ((agent1Execute tr opt s).2 ≠ none ∧
      (agent1Execute tr opt s).1.agent_1_status = AgentStatus.failed ∧
      ((agent1Execute tr opt s).1.project_description.isSome = true →
        (agent1Execute tr opt s).1.project_name.isSome = true) ∧
      ((agent1Execute tr opt s).1.dev_specification.isSome = true →
        (agent1Execute tr opt s).1.project_description.isSome = true) ∧
      ((agent1Execute tr opt s).1.tech_requirements.isSome = true →
        (agent1Execute tr opt s).1.dev_specification.isSome = true) ∧
      ((agent1Execute tr opt s).1.features.isSome = true →
        (agent1Execute tr opt s).1.tech_requirements.isSome = true)) := by
  cases tr with
  | error e => simp [agent1Execute, agent1Fail, h1, h2, h3, h4, h5]
  | ok t =>
    cases opt with
    | error e => simp [agent1Execute, agent1Fail, h1, h2, h3, h4, h5]
    | ok d =>
      obtain ⟨pn, pd, ds, tq, fs⟩ := d
      cases pn <;> cases pd <;> cases ds <;> cases tq <;> cases fs <;>
        simp [agent1Execute, agent1Fail, h1, h2, h3, h4, h5]

def c2FullDict : SpecDict :=
  { project_name := some "demo-app"
    project_description := some "A demo."
    dev_specification := some "# Spec"
    tech_requirements := some defaultTechReq
    features := some ["feature one"] }

theorem c2_amended_fields_initial_segment_witness :
    (create_initial_state "spec.mp3").project_name = none ∧
    (agent1Execute (Except.ok "dictated spec") (Except.ok c2FullDict)
      (create_initial_state "spec.mp3")).1.agent_1_status = AgentStatus.completed ∧
    (agent1Execute (Except.ok "dictated spec") (Except.ok c2FullDict)
      (create_initial_state "spec.mp3")).1.features.isSome = true := by
  refine ⟨rfl, ?_, ?_⟩ <;>
    rcases c2_amended_fields_initial_segment (Except.ok "dictated spec")
      (Except.ok c2FullDict) (create_initial_state "spec.mp3")
      rfl rfl rfl rfl rfl with h | h
  · exact h.2.1
  · exact absurd rfl h.1
  · exact h.2.2.2.2.2.2
  · exact absurd rfl h.1

/-- C7 counterexample: when the transcription call succeeds but the
specification-extraction call raises, Stage 1 ends with status `failed`
while `transcript` is set — the record does have a transcript value in a
run where `agent_1_status` is not `completed`, contradicting the
claim. -/
theorem c7_counterexample_transcript_on_failure :
    (agent1Execute (Except.ok "dictated spec")
      (Except.error (PyExn.other "network fault"))
      (create_initial_state "spec.mp3")).1.transcript = some "dictated spec" ∧
    (agent1Execute (Except.ok "dictated spec")
      (Except.error (PyExn.other "network fault"))
      (create_initial_state "spec.mp3")).1.agent_1_status = AgentStatus.failed := by
  exact ⟨rfl, rfl⟩

/-- C7 (amended): `transcript` tracks the transcription call, not stage
completion: on a state entering Stage 1 without a transcript, the field
stays absent exactly in runs where the transcription call itself
raises, and is set to the transcription result in every other run —
including runs that then fail during specification extraction. -/
theorem c7_amended_transcript_follows_transcription (tr : Except PyExn String)
    (opt : Except PyExn SpecDict) (s : ProjectState) (h : s.transcript = none) :
    (∀ e, tr = Except.error e → (agent1Execute tr opt s).1.transcript = none) ∧
    (∀ t, tr = Except.ok t → (agent1Execute tr opt s).1.transcript = some t) := by
  constructor
  · intro e he
    subst he
    simp [agent1Execute, agent1Fail, h]
  · intro t ht
    subst ht
    cases opt with
    | error e => simp [agent1Execute, agent1Fail]
    | ok d =>
      obtain ⟨pn, pd, ds, tq, fs⟩ := d
      cases pn <;> cases pd <;> cases ds <;> cases tq <;> cases fs <;>
        simp [agent1Execute, agent1Fail]

theorem c7_amended_transcript_follows_transcription_witness :
    (create_initial_state "spec.mp3").transcript = none ∧
    (agent1Execute (Except.ok "dictated spec")
      (Except.error (PyExn.other "network fault"))
      (create_initial_state "spec.mp3")).1.transcript = some "dictated spec" :=
  ⟨rfl,
    (c7_amended_transcript_follows_transcription (Except.ok "dictated spec")
      (Except.error (PyExn.other "network fault"))
      (create_initial_state "spec.mp3") rfl).2 "dictated spec" rfl⟩

/-- C9: `errors` is append-only: every stage node and the error handler
either leave the list unchanged or append diagnostics to its end, so the
input list is always a prefix of the output list. -/
theorem c9_errors_append_only :
    (∀ (tr : Except PyExn String) (opt : Except PyExn SpecDict) (s : ProjectState),
      ∃ t, (agent1Execute tr opt s).1.errors = s.errors ++ t) ∧
    (∀ (o2 : Agent2Outcome) (s : ProjectState),
      ∃ t, (agent2Execute o2 s).1.errors = s.errors ++ t) ∧
    (∀ (o3 : Agent3Oracle) (cwd0 : String) (s : ProjectState),
      ∃ t, (agent3Execute o3 cwd0 s).1.errors = s.errors ++ t) ∧
    (∀ s : ProjectState, ∃ t, (error_handler_node s).errors = s.errors ++ t) := by
  refine ⟨?_, ?_, ?_, fun s => ⟨[], by simp [error_handler_node]⟩⟩
  · intro tr opt s
    cases tr with
    | error e => exact ⟨_, rfl⟩
    | ok t =>
      cases opt with
      | error e => exact ⟨_, rfl⟩
      | ok d =>
        obtain ⟨pn, pd, ds, tq, fs⟩ := d
        cases pn <;> cases pd <;> cases ds <;> cases tq <;> cases fs <;>
          first
            | exact ⟨_, rfl⟩
            | exact ⟨[], by simp [agent1Execute]⟩
  · intro o2 s
    cases o2 with
    | ok u ow p md => exact ⟨[], by simp [agent2Execute]⟩
    | fail d => exact ⟨_, rfl⟩
  · intro o3 cwd0 s
    unfold agent3Execute
    dsimp only
    split
    · obtain ⟨d, hd⟩ := agent3Fail_errors _ _
      exact ⟨[d], hd⟩
    · split
      · obtain ⟨d, hd⟩ := agent3Fail_errors _ _
        exact ⟨[d], hd⟩
      · split
        · obtain ⟨d, hd⟩ := agent3Fail_errors _ _
          exact ⟨[d], hd⟩
        · split
          · obtain ⟨d, hd⟩ := agent3Fail_errors _ _
            exact ⟨[d], hd⟩
          · split
            · obtain ⟨d, hd⟩ := agent3Fail_errors _ _
              exact ⟨[d], hd⟩
            · exact ⟨[], by simp⟩
